import Mathlib

set_option maxRecDepth 400000

/-!
Verification of the hiddy Telegram-storefront repository against its
natural-language specification.

The development shallowly embeds the decision logic of
`Utils/coupons.py`, `Utils/affiliates.py`, `Utils/utils.py
(select_best_server_for_user)` and the purchase / renewal callback
branches of `UserBot/bot.py`.

Modelling conventions, used throughout:

* Monetary amounts (Rial subunits), day counts and identifiers are `ℤ`;
  data volumes in GB are `ℚ`.
* Coupon codes and panel UUIDs are opaque strings that the source only
  ever compares for equality; they are modelled as integers.
* The persistence gateway is the shipped `UserDBManager` of
  `Database/dbManager.py` (bound to `USERS_DB`, the default `db_manager`
  argument of `Utils/coupons.py` and `Utils/affiliates.py`); its state is
  passed explicitly.  The class has no `__getattr__` and no subclassing,
  so a method the business code calls but the class does not define
  (`find_coupon`, `find_coupon_usage`, `find_referral`) raises
  `AttributeError` at the call site; the surrounding exception handlers
  turn this into the functions own failure results, and the embedding
  reflects those collapsed paths exactly.
* Remote panel calls (`Utils/api.py create_user / update_user`) are
  external HTTP effects; their outcome is an explicit input of the
  embedded flow (`Option` for `create_user`, `Bool` for `update_user`).
* CPython arithmetic `int(a * (v / 100.0))` on integers `a`, `v` is
  IEEE-754 binary64 arithmetic followed by truncation toward zero.  It is
  embedded exactly (`F64` below): every double is a dyadic rational
  `m * 2 ^ e`, every operation rounds the exact result to 53 significant
  bits with round-to-nearest, ties-to-even.  Exponent-range effects
  (overflow past 2^1024, subnormals below 2^-1022) are outside the range
  exercised by any statement in this file and are not modelled.
-/

namespace Hiddy

/-! ### Exact model of CPython binary64 float arithmetic -/

/-- Fuel-driven floor of the base-2 logarithm on naturals:
`ilog2 fuel n = ⌊log₂ n⌋` for `1 ≤ n` whenever `fuel` bounds the recursion
depth.  Structural recursion on the fuel keeps it kernel-reducible. -/
def ilog2 : ℕ → ℕ → ℕ
  | 0, _ => 0
  | fuel+1, n => if 2 ≤ n then ilog2 fuel (n / 2) + 1 else 0

/-- Floor of the base-2 logarithm; the fuel `n` always suffices. -/
def blog (n : ℕ) : ℕ := ilog2 n n

/-- A finite IEEE-754 binary64 value, represented exactly as `m * 2 ^ e`.
The representation is not required to be normalised; the functions below
produce mantissas of 53 bits. -/
structure F64 where
  m : ℤ
  e : ℤ
  deriving DecidableEq

/-- Round the non-negative exact rational `n / d` (with `d > 0`) to the
nearest binary64 value, rounding ties to the even mantissa.  The binade
`t = ⌊log₂ (n / d)⌋` is located from the bit lengths of `n` and `d`
(correct up to one, then fixed by a comparison); the exact value is then
scaled into `[2^52, 2^53)` and rounded at integer precision. -/
def roundF (n d : ℤ) : F64 :=
  if n = 0 then ⟨0, 0⟩
  else
    let t0 : ℤ := (blog n.toNat : ℤ) - (blog d.toNat : ℤ)
    let lt : Bool := if 0 ≤ t0 then n < d * 2 ^ t0.toNat else n * 2 ^ (-t0).toNat < d
    let t : ℤ := if lt then t0 - 1 else t0
    let e : ℤ := t - 52
    let N : ℤ := if 0 ≤ e then n else n * 2 ^ (-e).toNat
    let D : ℤ := if 0 ≤ e then d * 2 ^ e.toNat else d
    let q : ℤ := N / D
    let r : ℤ := N % D
    let m : ℤ :=
      if 2 * r < D then q
      else if D < 2 * r then q + 1
      else if q % 2 = 0 then q else q + 1
    ⟨m, e⟩

/-- Sign-symmetric correctly rounded conversion of `n / d` (with `d > 0`)
to binary64; IEEE rounding is symmetric under negation. -/
def roundFZ (n d : ℤ) : F64 :=
  if n < 0 then let x := roundF (-n) d; ⟨-x.m, x.e⟩ else roundF n d

/-- Round an exact dyadic `m * 2 ^ e` (for example the exact product of two
doubles) to binary64. -/
def roundDy (m e : ℤ) : F64 :=
  if 0 ≤ e then roundFZ (m * 2 ^ e.toNat) 1 else roundFZ m (2 ^ (-e).toNat)

/-- CPython conversion of an arbitrary-precision `int` to a double
(round to nearest, ties to even). -/
def pyFloatInt (v : ℤ) : F64 := roundFZ v 1

/-- CPython `x / 100.0` for a double `x`: the exact quotient, correctly
rounded back to binary64. -/
def pyDiv100F64 (x : F64) : F64 :=
  if 0 ≤ x.e then roundFZ (x.m * 2 ^ x.e.toNat) 100 else roundFZ x.m (100 * 2 ^ (-x.e).toNat)

/-- CPython `a * y` for an `int` `a` and a double `y`: `a` is first
converted to a double, then the exact product of the two doubles is
correctly rounded. -/
def pyMulIntF64 (a : ℤ) (y : F64) : F64 :=
  let x := pyFloatInt a
  roundDy (x.m * y.m) (x.e + y.e)

/-- CPython `int(x)` for a double `x`: truncation toward zero. -/
def pyTruncF64 (x : F64) : ℤ :=
  if 0 ≤ x.e then x.m * 2 ^ x.e.toNat
  else if 0 ≤ x.m then x.m / 2 ^ (-x.e).toNat
  else -((-x.m) / 2 ^ (-x.e).toNat)

/-- CPython expression `int(a * (v / 100.0))` for integers `a` and `v`, as
written in `Utils/coupons.py` line 299 (percentage discount) and
`Utils/affiliates.py` line 111 (commission). -/
def int_mul_percent (a v : ℤ) : ℤ :=
  pyTruncF64 (pyMulIntF64 a (pyDiv100F64 (pyFloatInt v)))

/-! ### Coupon engine (`Utils/coupons.py`) -/

/-- Discount type of a coupon; `create_coupon` only admits the strings
"percentage" and "fixed" (`Utils/coupons.py` line 70). -/
inductive DiscountType
  | percentage
  | fixed
  deriving DecidableEq

/-- Interpretation of a stored non-null `expiry_date` string by the expiry
check of `validate_coupon` (`Utils/coupons.py` lines 214-235):
a 10-character string is parsed as `YYYY-MM-DD` and widened to 23:59:59 of
that day, any other length is parsed as `YYYY-MM-DD HH:MM:SS`, and a string
on which the attempted `strptime` raises `ValueError` is `malformed`.
Timestamps are abstract integers ordered like `datetime` values; for a
`dateOnly` field, `endOfDay` is the parsed date already widened to
23:59:59. -/
inductive ExpiryField
  | dateOnly (endOfDay : ℤ)
  | dateTime (t : ℤ)
  | malformed
  deriving DecidableEq

/-- Row of the `coupons` table (schema in `Database/dbManager.py`
lines 228-243) with the fields read by the coupon engine. -/
structure Coupon where
  id : ℤ
  code : ℤ
  discount_type : DiscountType
  discount_value : ℤ
  usage_limit : Option ℤ
  used_count : ℤ
  expiry_date : Option ExpiryField
  is_active : Bool
  deriving DecidableEq

/-- Row of the `coupon_usage` table (coupon + user join). -/
structure CouponUsage where
  coupon_id : ℤ
  user_id : ℤ
  deriving DecidableEq

/-- Coupon-related state of the persistence gateway. -/
structure CouponDB where
  coupons : List Coupon
  usages : List CouponUsage
  deriving DecidableEq

/-- Coupon lookup `find_coupon_by_code` of `Utils/coupons.py`
(lines 147-174) against the shipped gateway.  The body calls
`db_manager.find_coupon(code=code)`, but `UserDBManager` defines no
`find_coupon` (its own lookup is `find_coupon_by_code(code)`,
`Database/dbManager.py` line 1176, which this module-level function never
calls); the call raises `AttributeError`, the `except Exception` handler
at lines 172-174 swallows it, and the function returns `None` for every
code and every database state. -/
def find_coupon_by_code (db : CouponDB) (code : ℤ) : Option Coupon :=
  none

/-- Expiry check of `validate_coupon` (`Utils/coupons.py` lines 213-235):
no stored expiry never expires; a parsed expiry rejects iff `now` is
strictly past it (date-only values are valid through 23:59:59 of the day);
a malformed expiry only logs a warning and is skipped. -/
def coupon_expired (now : ℤ) (c : Coupon) : Bool :=
  match c.expiry_date with
  | none => false
  | some (ExpiryField.dateOnly endOfDay) => decide (endOfDay < now)
  | some (ExpiryField.dateTime t) => decide (t < now)
  | some ExpiryField.malformed => false

/-- Usage-ceiling check of `validate_coupon` (`Utils/coupons.py`
lines 238-245): exhausted iff a limit is set and `used_count >=
usage_limit`. -/
def coupon_usage_exhausted (c : Coupon) : Bool :=
  match c.usage_limit with
  | some limit => decide (limit ≤ c.used_count)
  | none => false

/-- Failure reasons reported by `validate_coupon`, in source order.
`alreadyUsed` is the error string of the already-used check
(`Utils/coupons.py` line 254); in the shipped program that check is dead
code (see `validate_coupon`) and the constructor is never produced.
`unexpectedError` is the generic failure of the outer `except Exception`
handler (lines 272-278). -/
inductive CouponError
  | notFound
  | inactive
  | expired
  | usageLimitExceeded
  | alreadyUsed
  | unexpectedError
  deriving DecidableEq

/-- Result dictionary `{valid, coupon, error}` of `validate_coupon`. -/
structure ValidationResult where
  valid : Bool
  coupon : Option Coupon
  error : Option CouponError
  deriving DecidableEq

/-- Validation state machine `validate_coupon(code, user_id)`
(`Utils/coupons.py` lines 176-263) with a caller-supplied `user_id`, as
shipped.  The checks are written in source order - not-found, inactive,
expired, usage-exhausted, already-used-by-user - short-circuiting on the
first failure, but two gateway defects collapse them: the coupon lookup
(`find_coupon_by_code` above) always returns `None`, so every call takes
the not-found arm; and were a coupon ever found, the already-used check
would call `db_manager.find_coupon_usage(...)`, a method `UserDBManager`
does not define (it has `is_coupon_used_by_user` instead,
`Database/dbManager.py` line 1220), so the `AttributeError` would
propagate to the outer `except Exception` handler (lines 272-278) and
return the generic failure - embedded here as the final
`unexpectedError` arm in place of the unreachable already-used / valid
outcomes. -/
def validate_coupon (now : ℤ) (db : CouponDB) (code : ℤ) (user_id : ℤ) : ValidationResult :=
  match find_coupon_by_code db code with
  | none => ⟨false, none, some CouponError.notFound⟩
  | some coupon =>
    if coupon.is_active = false then ⟨false, some coupon, some CouponError.inactive⟩
    else if coupon_expired now coupon then ⟨false, some coupon, some CouponError.expired⟩
    else if coupon_usage_exhausted coupon then
      ⟨false, some coupon, some CouponError.usageLimitExceeded⟩
    else ⟨false, none, some CouponError.unexpectedError⟩

/-- Discount arithmetic `apply_coupon_discount(original_amount_rials,
coupon)` (`Utils/coupons.py` lines 280-314).  Percentage:
`int(amount * (value / 100.0))` subtracted and clamped to `max(0, _)`;
fixed: `min(value, amount)` subtracted. -/
def apply_coupon_discount (original_amount_rials : ℤ) (coupon : Coupon) : ℤ :=
  match coupon.discount_type with
  | DiscountType.percentage =>
    let discount_amount := int_mul_percent original_amount_rials coupon.discount_value
    max 0 (original_amount_rials - discount_amount)
  | DiscountType.fixed =>
    let discount_amount := min coupon.discount_value original_amount_rials
    original_amount_rials - discount_amount

/-! ### Referral / affiliate ledger (`Utils/affiliates.py`) -/

/-- Row of the `users` table with the fields the embedded flows read. -/
structure UserRow where
  telegram_id : ℤ
  balance : ℤ
  deriving DecidableEq

/-- Gateway lookup `db_manager.find_user(telegram_id=…)`. -/
def find_user_rows (users : List UserRow) (telegram_id : ℤ) : List UserRow :=
  users.filter (fun u => u.telegram_id == telegram_id)

/-- Row of the `referrals` table (referrer / referred pair). -/
structure ReferralRow where
  referrer_id : ℤ
  referred_id : ℤ
  deriving DecidableEq

/-- Referral-related state of the persistence gateway. -/
structure RefDB where
  users : List UserRow
  referrals : List ReferralRow
  deriving DecidableEq

/-- Registration logic `register_referral(referrer_id, referred_id)`
(`Utils/affiliates.py` lines 23-79) against the shipped gateway: reject a
self-referral (line 39, before any gateway access), reject if either
user is unknown (`find_user` exists and works); the duplicate check at
line 56 then calls `db_manager.find_referral(...)`, a method
`UserDBManager` does not define, so `AttributeError` is raised, the
`except Exception` handler at lines 77-79 returns `False`, and neither
the short-circuit-to-success branch nor the `add_referral` insert is
ever reached.  The returned pair is (Python return value, resulting
gateway state); the state is returned unchanged on every path. -/
def register_referral (db : RefDB) (referrer_id referred_id : ℤ) : Bool × RefDB :=
  if referrer_id = referred_id then (false, db)
  else if (find_user_rows db.users referrer_id).isEmpty then (false, db)
  else if (find_user_rows db.users referred_id).isEmpty then (false, db)
  else (false, db)

/-- Default commission rate, `Utils/affiliates.py` line 19. -/
def DEFAULT_COMMISSION_RATE_PERCENTAGE : ℤ := 10

/-- Commission arithmetic `calculate_commission(order_amount_rials,
commission_rate_percentage)` (`Utils/affiliates.py` lines 81-117): a
missing rate defaults to `DEFAULT_COMMISSION_RATE_PERCENTAGE`; a rate
outside `[0, 100]` silently falls back to the same default; the result is
`int(order_amount_rials * (rate / 100.0))`.  The claims exercise
integer-valued rates, so the rate is carried as `ℤ`. -/
def calculate_commission (order_amount_rials : ℤ) (commission_rate_percentage : Option ℤ) : ℤ :=
  let rate0 : ℤ :=
    match commission_rate_percentage with
    | none => DEFAULT_COMMISSION_RATE_PERCENTAGE
    | some r => r
  let rate : ℤ := if 0 ≤ rate0 ∧ rate0 ≤ 100 then rate0 else DEFAULT_COMMISSION_RATE_PERCENTAGE
  int_mul_percent order_amount_rials rate

/-! ### Load balancer (`Utils/utils.py select_best_server_for_user`) -/

/-- Row of the `servers` table (schema in `Database/dbManager.py`
lines 61-66): `user_limit` is nullable, `status` defaults to true.
`none` stands for an absent capacity ceiling (the call site substitutes
`float("inf")`). -/
structure ServerRow where
  id : ℤ
  user_limit : Option ℚ
  status : Bool
  deriving DecidableEq

/-- Load score of one server as written in the loop body of
`select_best_server_for_user` (`Utils/utils.py` lines 881-890): with no
ceiling (or ceiling 0) the score is the raw subscriber count, otherwise
`count / limit + count * 0.01` (with ratio 1 if the limit is negative).
This code is unreachable in the shipped repository - see
`select_best_server_for_user` below - and is embedded for reference. -/
def server_load_score (user_count : ℕ) (user_limit : Option ℚ) : ℚ :=
  match user_limit with
  | none => user_count
  | some limit =>
    if limit = 0 then user_count
    else (if 0 < limit then (user_count : ℚ) / limit else 1) + user_count * (1 / 100)

/-- Balancer entry point `select_best_server_for_user()` (`Utils/utils.py`
lines 847-905) as shipped.  The body loads all servers and returns `None`
on an empty result.  Otherwise the first loop iteration evaluates
`USERS_DB.find_order(server_id=server_id)`; `dbManager.find_order` is
declared as `def find_order(self, id=None, telegram_id=None)`
(`Database/dbManager.py` line 699) and accepts no `server_id` keyword, so
the call raises `TypeError`, the surrounding `except Exception` handler
catches it, and the function returns `None`.  The scoring and selection
code below the call (`server_load_score`, the running minimum, the
`status` filter) is unreachable. -/
def select_best_server_for_user (servers : List ServerRow) : Option ServerRow :=
  match servers with
  | [] => none
  | _ :: _ => none

/-! ### Purchase and renewal flows (`UserBot/bot.py`) -/

/-- Row of the `plans` table (schema in `Database/dbManager.py`
lines 77-86). -/
structure PlanRow where
  id : ℤ
  size_gb : ℚ
  days : ℤ
  price : ℤ
  server_id : ℤ
  status : Bool
  deriving DecidableEq

/-- Remote subscription record as assembled by `user_info`
(`Utils/utils.py` lines 183-240) and consumed by the renewal flow. -/
structure PanelUser where
  remaining_day : ℤ
  usage_limit_GB : ℚ
  current_usage_GB : ℚ
  remaining_usage_GB : ℚ
  package_days : ℤ
  deriving DecidableEq

/-- Parameter triple pushed to the panel by `update_user` during a
renewal. -/
structure RenewalParams where
  usage_limit_GB : ℚ
  package_days : ℤ
  current_usage_GB : Option ℚ
  deriving DecidableEq

/-- Renewal parameters computed by the `confirm_renewal_from_wallet`
branch (`UserBot/bot.py` lines 720-783), by configured renewal method:
method 1 (Default) treats an exhausted subscription
(`remaining_day <= 0 or remaining_usage_GB <= 0`) as a fresh start
(plan size, plan days, usage reset to 0) and otherwise tops up with
`usage_limit_GB + size_gb` and `days + (package_days - remaining_day)`;
method 2 (Advanced) always starts fresh; method 3 (Fair) has the same
exhausted branch as Default and otherwise uses `days + package_days`.
Any other method leaves `renewal_success = False` (`none` here). -/
def renewal_params (renewal_method : ℤ) (user_data : PanelUser) (plan : PlanRow) :
    Option RenewalParams :=
  if renewal_method = 1 then
    if user_data.remaining_day ≤ 0 ∨ user_data.remaining_usage_GB ≤ 0 then
      some ⟨plan.size_gb, plan.days, some 0⟩
    else
      some ⟨user_data.usage_limit_GB + plan.size_gb,
        plan.days + (user_data.package_days - user_data.remaining_day), none⟩
  else if renewal_method = 2 then
    some ⟨plan.size_gb, plan.days, some 0⟩
  else if renewal_method = 3 then
    if user_data.remaining_day ≤ 0 ∨ user_data.remaining_usage_GB ≤ 0 then
      some ⟨plan.size_gb, plan.days, some 0⟩
    else
      some ⟨user_data.usage_limit_GB + plan.size_gb,
        plan.days + user_data.package_days, none⟩
  else none

/-- Advanced-renewal gate of the `renewal_subscription` branch
(`UserBot/bot.py` lines 612-619): under `renewal_method == 2` the plan
list is refused (before any plan is shown) iff
`remaining_days > settings[advanced_renewal_days]` and
`remaining_usage > settings[advanced_renewal_usage]`. -/
def advanced_renewal_refused (advanced_renewal_days : ℤ) (advanced_renewal_usage : ℚ)
    (user_data : PanelUser) : Bool :=
  decide (advanced_renewal_days < user_data.remaining_day) &&
    decide (advanced_renewal_usage < user_data.remaining_usage_GB)

/-! ### Helper lemmas -/

theorem ediv_round_nonneg (N D : ℤ) (hN : 0 ≤ N) (hD : 0 < D) :
    0 ≤ (if 2 * (N % D) < D then N / D
      else if D < 2 * (N % D) then N / D + 1
      else if (N / D) % 2 = 0 then N / D else N / D + 1) := by
  have hq : 0 ≤ N / D := Int.ediv_nonneg hN hD.le
  split_ifs <;> omega

theorem roundF_m_nonneg (n d : ℤ) (hn : 0 ≤ n) (hd : 0 < d) : 0 ≤ (roundF n d).m := by
  unfold roundF
  split_ifs with h0
  · simp
  · dsimp only
    apply ediv_round_nonneg
    · split_ifs <;>
        first
          | exact hn
          | exact mul_nonneg hn (pow_nonneg (by norm_num) _)
    · split_ifs <;>
        first
          | exact hd
          | exact mul_pos hd (pow_pos (by norm_num) _)

theorem roundFZ_m_nonneg (n d : ℤ) (hn : 0 ≤ n) (hd : 0 < d) : 0 ≤ (roundFZ n d).m := by
  unfold roundFZ
  rw [if_neg (not_lt.2 hn)]
  exact roundF_m_nonneg n d hn hd

theorem roundDy_m_nonneg (m e : ℤ) (hm : 0 ≤ m) : 0 ≤ (roundDy m e).m := by
  unfold roundDy
  split_ifs
  · exact roundFZ_m_nonneg _ _ (mul_nonneg hm (pow_nonneg (by norm_num) _)) one_pos
  · exact roundFZ_m_nonneg _ _ hm (pow_pos (by norm_num) _)

theorem pyFloatInt_m_nonneg (v : ℤ) (hv : 0 ≤ v) : 0 ≤ (pyFloatInt v).m :=
  roundFZ_m_nonneg v 1 hv one_pos

theorem pyDiv100F64_m_nonneg (x : F64) (hx : 0 ≤ x.m) : 0 ≤ (pyDiv100F64 x).m := by
  unfold pyDiv100F64
  split_ifs
  · exact roundFZ_m_nonneg _ _ (mul_nonneg hx (pow_nonneg (by norm_num) _)) (by norm_num)
  · exact roundFZ_m_nonneg _ _ hx (mul_pos (by norm_num) (pow_pos (by norm_num) _))

theorem pyMulIntF64_m_nonneg (a : ℤ) (y : F64) (ha : 0 ≤ a) (hy : 0 ≤ y.m) :
    0 ≤ (pyMulIntF64 a y).m :=
  roundDy_m_nonneg _ _ (mul_nonneg (pyFloatInt_m_nonneg a ha) hy)

theorem pyTruncF64_nonneg (x : F64) (hx : 0 ≤ x.m) : 0 ≤ pyTruncF64 x := by
  unfold pyTruncF64
  split_ifs <;>
    first
      | exact mul_nonneg hx (pow_nonneg (by norm_num) _)
      | exact Int.ediv_nonneg hx (pow_nonneg (by norm_num) _)

theorem int_mul_percent_nonneg (a v : ℤ) (ha : 0 ≤ a) (hv : 0 ≤ v) :
    0 ≤ int_mul_percent a v :=
  pyTruncF64_nonneg _
    (pyMulIntF64_m_nonneg a _ ha (pyDiv100F64_m_nonneg _ (pyFloatInt_m_nonneg v hv)))

/-! ### Claim theorems -/

/-- C4: for every non-negative original amount and every coupon
(percentage with value in [0,100], or fixed with non-negative value),
`apply_coupon_discount` returns an integer in `[0, amount]` - the result
is never negative and the discount never exceeds the original amount;
30 percent off 100000 gives 70000, and a fixed 50000 discount on 30000
gives 0 (clamped). -/
theorem C4_apply_coupon_discount_bounds (a : ℤ) (c : Coupon) (ha : 0 ≤ a)
    (hc : (c.discount_type = DiscountType.percentage ∧
            0 ≤ c.discount_value ∧ c.discount_value ≤ 100) ∨
          (c.discount_type = DiscountType.fixed ∧ 0 ≤ c.discount_value)) :
    (0 ≤ apply_coupon_discount a c ∧ apply_coupon_discount a c ≤ a) ∧
    apply_coupon_discount 100000 ⟨1, 0, DiscountType.percentage, 30, none, 0, none, true⟩
      = 70000 ∧
    apply_coupon_discount 30000 ⟨1, 0, DiscountType.fixed, 50000, none, 0, none, true⟩
      = 0 := by
  refine ⟨?_, by decide, by decide⟩
  rcases hc with ⟨htype, hv0, _⟩ | ⟨htype, hv0⟩
  · have hd : 0 ≤ int_mul_percent a c.discount_value := int_mul_percent_nonneg a _ ha hv0
    unfold apply_coupon_discount
    rw [htype]
    dsimp only
    constructor
    · exact le_max_left 0 _
    · rcases max_choice 0 (a - int_mul_percent a c.discount_value) with h | h <;> rw [h] <;> omega
  · unfold apply_coupon_discount
    rw [htype]
    dsimp only
    constructor
    · have := min_le_right c.discount_value a
      omega
    · have : 0 ≤ min c.discount_value a := le_min hv0 ha
      omega

/-- Closed instance of C4 at the 30-percent coupon of the claim. -/
theorem C4_witness :
    0 ≤ apply_coupon_discount 100000 ⟨1, 0, DiscountType.percentage, 30, none, 0, none, true⟩ ∧
    apply_coupon_discount 100000 ⟨1, 0, DiscountType.percentage, 30, none, 0, none, true⟩
      ≤ 100000 :=
  (C4_apply_coupon_discount_bounds 100000
    ⟨1, 0, DiscountType.percentage, 30, none, 0, none, true⟩
    (by decide) (Or.inl ⟨rfl, by decide, by decide⟩)).1

/-- C7 counterexample: the claim states that for a rate in [0,100] the
commission is `floor(orderAmount * rate / 100)`; at orderAmount 100 and
rate 29 the code truncates the binary64 product `100 * (29 / 100.0)`,
which is strictly below 29, and returns 28 instead of
`floor(100 * 29 / 100) = 29`. -/
theorem C7_counterexample :
    calculate_commission 100 (some 29) = 28 ∧
    calculate_commission 100 (some 29) ≠ 100 * 29 / 100 := by
  constructor <;> decide

/-- C7 (amended): `calculate_commission` truncates the double-precision
product `orderAmount * (rate / 100.0)`, which can fall one below
`floor(orderAmount * rate / 100)` (100 at rate 29 yields 28); when the
rate is omitted or out of range [0,100] it silently falls back to the
default rate of 10 percent; the result is never negative for a
non-negative order amount, and `calculate_commission(100000, 10) =
10000`. -/
theorem C7_calculate_commission_amended :
    (∀ a : ℤ, calculate_commission a none = calculate_commission a (some 10)) ∧
    (∀ a r : ℤ, ¬(0 ≤ r ∧ r ≤ 100) →
      calculate_commission a (some r) = calculate_commission a (some 10)) ∧
    (∀ a r : ℤ, 0 ≤ a → 0 ≤ calculate_commission a (some r)) ∧
    calculate_commission 100000 (some 10) = 10000 ∧
    calculate_commission 100 (some 29) = 28 := by
  refine ⟨fun a => rfl, ?_, ?_, by decide, by decide⟩
  · intro a r h
    unfold calculate_commission
    dsimp only
    rw [if_neg h, if_pos (by norm_num [DEFAULT_COMMISSION_RATE_PERCENTAGE])]
    rfl
  · intro a r ha
    unfold calculate_commission
    dsimp only
    apply int_mul_percent_nonneg a _ ha
    split_ifs with h
    · exact h.1
    · norm_num [DEFAULT_COMMISSION_RATE_PERCENTAGE]

/-- Closed instance of C7 (amended): rate 150 is out of range and falls
back to the default rate. -/
theorem C7_witness :
    calculate_commission 100000 (some 150) = calculate_commission 100000 (some 10) ∧
    0 ≤ calculate_commission 12345 (some 29) :=
  ⟨C7_calculate_commission_amended.2.1 100000 150 (by decide),
    C7_calculate_commission_amended.2.2.1 12345 29 (by decide)⟩

/-- C8: `register_referral(X, X)` returns failure and performs no write:
the self-referral check fires before any lookup or insert and the gateway
state, in particular the referral table, is returned unchanged. -/
theorem C8_register_referral_self (db : RefDB) (x : ℤ) :
    register_referral db x x = (false, db) := by
  simp [register_referral]

/-- C9 (code bug evaluation): the shipped `register_referral` returns
`False` and writes nothing for every input - also for distinct existing
users, where the claim requires the first call to insert one referral
row and the second to short-circuit to success - because the duplicate
check calls the nonexistent `db_manager.find_referral` and the
`AttributeError` is swallowed into the failure return before any insert. -/
theorem C9_register_referral_never_inserts (db : RefDB) (a b : ℤ) :
    register_referral db a b = (false, db) ∧
    register_referral (register_referral db a b).2 a b = (false, db) ∧
    register_referral ⟨[⟨1, 0⟩, ⟨2, 0⟩], []⟩ 1 2 = (false, ⟨[⟨1, 0⟩, ⟨2, 0⟩], []⟩) := by
  have h : ∀ x y : ℤ, ∀ s : RefDB, register_referral s x y = (false, s) := by
    intro x y s
    unfold register_referral
    split_ifs <;> rfl
  exact ⟨h a b db, by rw [h a b db]; exact h a b db, h 1 2 ⟨[⟨1, 0⟩, ⟨2, 0⟩], []⟩⟩

/-- C5 (code bug evaluation): the shipped `validate_coupon` reports
not-found for every code, user and database state - also for a stored,
active, unexpired, unexhausted, unused coupon looked up by its own code,
which the claim says fails no check and must be reported valid - because
the coupon lookup calls the nonexistent `db_manager.find_coupon` and
always returns `None`.  The priority chain the claim describes is
present in the source but unreachable past its first check. -/
theorem C5_validate_coupon_always_not_found :
    (∀ (now : ℤ) (db : CouponDB) (code uid : ℤ),
      validate_coupon now db code uid = ⟨false, none, some CouponError.notFound⟩) ∧
    validate_coupon 100
        ⟨[⟨1, 42, DiscountType.percentage, 10, some 5, 0, none, true⟩], []⟩ 42 9
      = ⟨false, none, some CouponError.notFound⟩ := by
  exact ⟨fun now db code uid => rfl, rfl⟩

/-- C10 (code bug evaluation): the expiry check of `validate_coupon`
(`Utils/coupons.py` lines 213-235) does treat a malformed stored expiry
as no expiry at all - `coupon_expired` is false on it - but in the
shipped program that check is dead code: validation never proceeds past
the coupon lookup, and a malformed-expiry coupon is reported not-found
like every other coupon instead of being validated onward. -/
theorem C10_malformed_expiry_unreachable (now uid : ℤ) (c : Coupon)
    (hmal : c.expiry_date = some ExpiryField.malformed) :
    coupon_expired now c = false ∧
    validate_coupon now ⟨[c], []⟩ c.code uid = ⟨false, none, some CouponError.notFound⟩ := by
  constructor
  · unfold coupon_expired
    rw [hmal]
  · rfl

/-- Closed instance of C10 at an active malformed-expiry coupon. -/
theorem C10_witness :
    coupon_expired 5 ⟨3, 77, DiscountType.fixed, 1000, none, 0, some ExpiryField.malformed, true⟩
      = false ∧
    validate_coupon 5
        ⟨[⟨3, 77, DiscountType.fixed, 1000, none, 0, some ExpiryField.malformed, true⟩], []⟩
        77 4
      = ⟨false, none, some CouponError.notFound⟩ :=
  C10_malformed_expiry_unreachable 5 4
    ⟨3, 77, DiscountType.fixed, 1000, none, 0, some ExpiryField.malformed, true⟩ rfl


/-- C2: renewal parameters per method - Default (1) resets an exhausted
subscription to the plan allotment with usage 0 and otherwise tops up
with elapsed-adjusted days `plan.days + (package_days - remaining_day)`;
Fair (3) has the identical exhausted branch and otherwise adds the full
original `package_days`. -/
theorem C2_renewal_params_methods (u : PanelUser) (plan : PlanRow) :
    ((u.remaining_day ≤ 0 ∨ u.remaining_usage_GB ≤ 0) →
      renewal_params 1 u plan = some ⟨plan.size_gb, plan.days, some 0⟩ ∧
      renewal_params 3 u plan = some ⟨plan.size_gb, plan.days, some 0⟩) ∧
    (¬(u.remaining_day ≤ 0 ∨ u.remaining_usage_GB ≤ 0) →
      renewal_params 1 u plan
        = some ⟨u.usage_limit_GB + plan.size_gb,
            plan.days + (u.package_days - u.remaining_day), none⟩ ∧
      renewal_params 3 u plan
        = some ⟨u.usage_limit_GB + plan.size_gb, plan.days + u.package_days, none⟩) := by
  constructor <;> intro h <;> constructor <;> norm_num [renewal_params, h]

/-- Closed instance of C2 at the numbers of the claim: plan days 30 and
size 10 GB; an exhausted subscription (remaining days 0) yields
(10 GB, 30 days, usage 0); a live subscription with original package
days 60 and remaining days 20 yields 70 days under Default and 90 days
under Fair. -/
theorem C2_witness :
    renewal_params 1 ⟨0, 40, 0, 5, 60⟩ ⟨7, 10, 30, 30000, 3, true⟩
      = some ⟨10, 30, some 0⟩ ∧
    (renewal_params 1 ⟨20, 40, 0, 10, 60⟩ ⟨7, 10, 30, 30000, 3, true⟩).map
        RenewalParams.package_days = some 70 ∧
    (renewal_params 3 ⟨20, 40, 0, 10, 60⟩ ⟨7, 10, 30, 30000, 3, true⟩).map
        RenewalParams.package_days = some 90 := by
  have hex := (C2_renewal_params_methods ⟨0, 40, 0, 5, 60⟩ ⟨7, 10, 30, 30000, 3, true⟩).1
    (by decide)
  have hlive := (C2_renewal_params_methods ⟨20, 40, 0, 10, 60⟩ ⟨7, 10, 30, 30000, 3, true⟩).2
    (by decide)
  refine ⟨hex.1, ?_, ?_⟩
  · rw [hlive.1]
    rfl
  · rw [hlive.2]
    rfl

/-- C3: under the advanced renewal policy (method 2) the gate refuses
exactly when remaining days exceed the day threshold and remaining usage
exceeds the usage threshold; renewal is offered whenever remaining days
are at most the day threshold or remaining usage is at most the usage
threshold (either alone suffices).  With thresholds 3 days / 3 GB,
(10 d, 10 GB) is refused and (2 d, 10 GB) is allowed. -/
theorem C3_advanced_renewal_gate (td : ℤ) (tu : ℚ) (u : PanelUser) :
    (advanced_renewal_refused td tu u = true ↔
      td < u.remaining_day ∧ tu < u.remaining_usage_GB) ∧
    (advanced_renewal_refused td tu u = false ↔
      u.remaining_day ≤ td ∨ u.remaining_usage_GB ≤ tu) ∧
    advanced_renewal_refused 3 3 ⟨10, 0, 0, 10, 0⟩ = true ∧
    advanced_renewal_refused 3 3 ⟨2, 0, 0, 10, 0⟩ = false := by
  have hiff : advanced_renewal_refused td tu u = true ↔
      td < u.remaining_day ∧ tu < u.remaining_usage_GB := by
    simp [advanced_renewal_refused]
  refine ⟨hiff, ?_, by decide, by decide⟩
  rw [← Bool.not_eq_true, hiff, not_and_or, not_lt, not_lt]

theorem server_load_score_lt_of_fewer (L : ℚ) (hL : 0 < L) (n1 n2 : ℕ) (h : n1 < n2) :
    server_load_score n1 (some L) < server_load_score n2 (some L) := by
  have hc : (n1 : ℚ) < n2 := by exact_mod_cast h
  unfold server_load_score
  dsimp only
  rw [if_neg hL.ne', if_pos hL, if_neg hL.ne', if_pos hL]
  have h100 : (0:ℚ) < 1 / 100 := by norm_num
  exact add_lt_add (div_lt_div_iff_of_pos_right hL |>.mpr hc) (mul_lt_mul_of_pos_right hc h100)

/-- C6 (code bug evaluation): `select_best_server_for_user` returns
`None` for every server set - also at the failing input of one active
server with a positive ceiling, which the claim says must be selected -
because the `find_order(server_id=...)` call raises `TypeError` inside
the first loop iteration and the handler returns `None`. -/
theorem C6_select_best_server_always_none :
    select_best_server_for_user [⟨1, some 10, true⟩] = none ∧
    ∀ servers : List ServerRow, select_best_server_for_user servers = none := by
  refine ⟨rfl, ?_⟩
  intro servers
  cases servers <;> rfl

end Hiddy
